import Mathlib

/-!
Shallow embedding of the hash-request client in `src/src/pages/file-hash.vue`.

The component holds two reactive string fields, `filePath` and `hashResult`,
both initialised to the empty string.  `selectFile` awaits the native picker
(`open({multiple:false,directory:false,...})`), returns early when the result
is falsy (null from cancellation, or an empty string), otherwise stores the
path and awaits `calculateHash`; any exception escaping the try block is
swallowed by an empty catch.  `calculateHash` returns early when `filePath`
is falsy, otherwise clears `hashResult`, awaits the backend command
`calculate_file_hash`, and either stores the returned digest string or, on
rejection, shows one error notice whose message is `String(error)`.

Errors are opaque JavaScript values observed only through `String(error)`;
we model an error by that string form.  The environment's answers (the
picker outcome and the backend's answer for each path) are passed in as
explicit arguments.  Effects are recorded as an ordered event list so that
statements about "no request was issued" or "exactly one notice" are about
the trace, not only the final state.
-/

/-- A JavaScript error value, observed only through `String(error)`:
`str` is that string form. -/
structure JSError where
  str : String
deriving Repr, DecidableEq

/-- The two reactive fields of the component: `filePath` and `hashResult`. -/
structure State where
  filePath : String
  hashResult : String
deriving Repr, DecidableEq

/-- Both refs are initialised to `''`. -/
def State.initial : State := { filePath := "", hashResult := "" }

/-- Outcome of the awaited `invoke('calculate_file_hash', ...)` call:
it resolves with a digest string or rejects with an error value. -/
inductive DigestOutcome where
  | ok (digest : String)
  | err (error : JSError)
deriving Repr, DecidableEq

/-- Outcome of the awaited `open(...)` picker call: it resolves with
`string | null` (null on cancellation) or rejects with an error value. -/
inductive PickerOutcome where
  | resolved (selected : Option String)
  | failed (error : JSError)
deriving Repr, DecidableEq

/-- JavaScript falsiness of the picker result `string | null`:
`!selected` is true for `null` and for the empty string. -/
def jsFalsy : Option String → Bool
  | none => true
  | some s => s == ""

/-- Observable steps performed by the component, in program order. -/
inductive Event where
  /-- `filePath.value = selected` in `selectFile`. -/
  | setFilePath (p : String)
  /-- `hashResult.value = ''` at the start of a hash computation. -/
  | clearResult
  /-- the backend command is invoked with `{ filePath: path }`. -/
  | request (path : String)
  /-- `hashResult.value = result` on a resolved backend call. -/
  | setResult (d : String)
  /-- an error notice with the given title, message and type is shown. -/
  | notify (title message ntype : String)
deriving Repr, DecidableEq

/-- The error notices among a list of events. -/
def notifyEvents (evs : List Event) : List Event :=
  evs.filter fun e =>
    match e with
    | .notify _ _ _ => true
    | _ => false

/-- The paths of the backend requests among a list of events. -/
def requestEvents (evs : List Event) : List String :=
  evs.filterMap fun e =>
    match e with
    | .request p => some p
    | _ => none

/-- `await invoke('calculate_file_hash', { filePath: path })`: resolves with
the digest string or throws the error value, as the environment dictates. -/
def invokeHash (digest : String → DigestOutcome) (path : String) :
    Except JSError String :=
  match digest path with
  | .ok d => .ok d
  | .err e => .error e

/-- `calculateHash` from `file-hash.vue`: early return when `filePath` is
falsy (empty); otherwise clear `hashResult`, await the backend, and either
store the result or catch the rejection and show an error notice.  The
`Except` codomain records whether the function itself rejects; every branch
returns `.ok` because the internal try/catch absorbs the only throw. -/
def calculateHash (digest : String → DigestOutcome) (s : State) :
    Except JSError (State × List Event) :=
  if s.filePath == "" then
    .ok (s, [])
  else
    let s1 : State := { s with hashResult := "" }
    match invokeHash digest s1.filePath with
    | .ok d =>
        .ok ({ s1 with hashResult := d },
          [Event.clearResult, Event.request s1.filePath, Event.setResult d])
    | .error e =>
        .ok (s1,
          [Event.clearResult, Event.request s1.filePath,
            Event.notify "计算哈希值失败" e.str "error"])

/-- `selectFile` from `file-hash.vue`: await the picker; on a falsy result
return with nothing changed; otherwise store the path and await
`calculateHash`.  The empty catch swallows any exception from the try block
(a picker rejection, or a rejection of `calculateHash` — the latter branch
is dead, see `calculateHash_never_rejects`); mutations made before a throw
persist. -/
def selectFile (picker : PickerOutcome) (digest : String → DigestOutcome)
    (s : State) : State × List Event :=
  match picker with
  | .failed _ => (s, [])
  | .resolved sel =>
      if jsFalsy sel then (s, [])
      else
        let p := sel.getD ""
        let s1 : State := { s with filePath := p }
        match calculateHash digest s1 with
        | .ok (s2, evs) => (s2, Event.setFilePath p :: evs)
        | .error _ => (s1, [Event.setFilePath p])

/-- One user-driven run: a click on the button (`selectFile` with the
environment's picker and backend answers for that run) or a direct
`calculateHash` run. -/
inductive Op where
  | select (picker : PickerOutcome) (digest : String → DigestOutcome)
  | compute (digest : String → DigestOutcome)

/-- Execute one run against a state. A top-level `calculateHash` rejection
would leave the state as is; the branch is dead (`calculateHash` always
returns `.ok`). -/
def runOp (op : Op) (s : State) : State × List Event :=
  match op with
  | .select picker digest => selectFile picker digest s
  | .compute digest =>
      match calculateHash digest s with
      | .ok r => r
      | .error _ => (s, [])

/-- Execute a sequence of runs, accumulating the event trace. -/
def run : List Op → State × List Event → State × List Event
  | [], acc => acc
  | op :: ops, (s, evs) =>
      let r := runOp op s
      run ops (r.1, evs ++ r.2)

/-- Fold step extracting, from an event trace, the most recently submitted
request path together with the digest stored for it (if any came after). -/
def stepLRR (acc : Option (String × Option String)) (ev : Event) :
    Option (String × Option String) :=
  match ev with
  | .request p => some (p, none)
  | .setResult d =>
      match acc with
      | some (p, _) => some (p, some d)
      | none => none
  | _ => acc

/-- The most recently submitted request path in a trace, with the digest
stored after it (if any). -/
def lastReqRes (evs : List Event) : Option (String × Option String) :=
  evs.foldl stepLRR none

/-- C1: a `selectFile` run whose picker resolves with a non-empty path `p`
and whose backend answers with digest `d` ends with `filePath = p` and
`hashResult = d`, the backend string stored verbatim. -/
theorem selectFile_success (s : State) (p d : String)
    (digest : String → DigestOutcome) (hp : p ≠ "")
    (hd : digest p = .ok d) :
    (selectFile (.resolved (some p)) digest s).1 =
      { filePath := p, hashResult := d } := by
  simp [selectFile, jsFalsy, calculateHash, invokeHash, hp, hd]

theorem selectFile_success_witness :
    ("/tmp/a.txt" : String) ≠ "" ∧
    (selectFile (.resolved (some "/tmp/a.txt"))
        (fun _ => DigestOutcome.ok "e3b0c4") State.initial).1 =
      { filePath := "/tmp/a.txt", hashResult := "e3b0c4" } :=
  ⟨by decide, selectFile_success State.initial "/tmp/a.txt" "e3b0c4"
    (fun _ => DigestOutcome.ok "e3b0c4") (by decide) rfl⟩

/-- On a non-empty stored path whose backend call resolves with `d`,
`calculateHash` stores `d` and its trace is clear, request, store. -/
lemma calculateHash_ok (s : State) (d : String)
    (digest : String → DigestOutcome) (hp : s.filePath ≠ "")
    (hd : digest s.filePath = .ok d) :
    calculateHash digest s =
      .ok ({ s with hashResult := d },
        [Event.clearResult, Event.request s.filePath, Event.setResult d]) := by
  simp [calculateHash, invokeHash, hp, hd]

/-- On a non-empty stored path whose backend call rejects with `e`,
`calculateHash` leaves the result cleared and shows one error notice
carrying `String(e)`. -/
lemma calculateHash_err (s : State) (e : JSError)
    (digest : String → DigestOutcome) (hp : s.filePath ≠ "")
    (hd : digest s.filePath = .err e) :
    calculateHash digest s =
      .ok ({ s with hashResult := "" },
        [Event.clearResult, Event.request s.filePath,
          Event.notify "计算哈希值失败" e.str "error"]) := by
  simp [calculateHash, invokeHash, hp, hd]

/-- C2: a `selectFile` run whose picker resolves with non-empty path `p`
and whose backend call rejects with error `e` ends with `hashResult`
empty and `filePath = p`, and emits exactly one error notice, whose
message is `String(e)`. -/
theorem selectFile_backend_failure (s : State) (p : String) (e : JSError)
    (digest : String → DigestOutcome) (hp : p ≠ "")
    (hd : digest p = .err e) :
    (selectFile (.resolved (some p)) digest s).1.hashResult = "" ∧
    (selectFile (.resolved (some p)) digest s).1.filePath = p ∧
    notifyEvents (selectFile (.resolved (some p)) digest s).2 =
      [Event.notify "计算哈希值失败" e.str "error"] := by
  simp [selectFile, jsFalsy, calculateHash, invokeHash, notifyEvents, hp, hd]

theorem selectFile_backend_failure_witness :
    ("/tmp/b.txt" : String) ≠ "" ∧
    ((selectFile (.resolved (some "/tmp/b.txt"))
        (fun _ => DigestOutcome.err ⟨"file not found"⟩) State.initial).1.hashResult = "" ∧
     (selectFile (.resolved (some "/tmp/b.txt"))
        (fun _ => DigestOutcome.err ⟨"file not found"⟩) State.initial).1.filePath = "/tmp/b.txt" ∧
     notifyEvents (selectFile (.resolved (some "/tmp/b.txt"))
        (fun _ => DigestOutcome.err ⟨"file not found"⟩) State.initial).2 =
       [Event.notify "计算哈希值失败" "file not found" "error"]) :=
  ⟨by decide, selectFile_backend_failure State.initial "/tmp/b.txt"
    ⟨"file not found"⟩ (fun _ => DigestOutcome.err ⟨"file not found"⟩)
    (by decide) rfl⟩

/-- C4: when the picker resolves with no selection (`null`), `selectFile`
leaves `filePath` and `hashResult` at their prior values and issues no
backend request (the whole event trace is empty). -/
theorem selectFile_cancel (s : State) (digest : String → DigestOutcome) :
    (selectFile (.resolved none) digest s).1.filePath = s.filePath ∧
    (selectFile (.resolved none) digest s).1.hashResult = s.hashResult ∧
    requestEvents (selectFile (.resolved none) digest s).2 = [] ∧
    selectFile (.resolved none) digest s = (s, []) :=
  ⟨rfl, rfl, rfl, rfl⟩

/-- C5: `calculateHash` with an empty `filePath` returns at once: the
state (so in particular `hashResult`) is unchanged and no backend call
is made (the event trace is empty). -/
theorem calculateHash_no_path (s : State) (digest : String → DigestOutcome)
    (h : s.filePath = "") :
    calculateHash digest s = .ok (s, []) := by
  simp [calculateHash, h]

theorem calculateHash_no_path_witness :
    State.initial.filePath = "" ∧
    calculateHash (fun _ => DigestOutcome.ok "d") State.initial =
      .ok (State.initial, []) :=
  ⟨rfl, calculateHash_no_path State.initial
    (fun _ => DigestOutcome.ok "d") rfl⟩

/-- C7: when the picker call itself rejects, the empty catch swallows the
error: no notice, no backend request, state unchanged — the run is
observably identical to a cancellation. -/
theorem selectFile_picker_failure (s : State) (e : JSError)
    (digest : String → DigestOutcome) :
    selectFile (.failed e) digest s = (s, []) ∧
    notifyEvents (selectFile (.failed e) digest s).2 = [] ∧
    requestEvents (selectFile (.failed e) digest s).2 = [] ∧
    selectFile (.failed e) digest s = selectFile (.resolved none) digest s :=
  ⟨rfl, rfl, rfl, rfl⟩

/-- C9: a picker that resolves with the empty string is treated exactly
like a cancellation — the guard tests JavaScript falsiness, not only
null — so the state is unchanged and no request is issued. -/
theorem selectFile_empty_selection (s : State)
    (digest : String → DigestOutcome) :
    selectFile (.resolved (some "")) digest s = (s, []) ∧
    selectFile (.resolved (some "")) digest s =
      selectFile (.resolved none) digest s := by
  constructor <;> simp [selectFile, jsFalsy]

/-- C6: two sequential `selectFile` runs with selected paths `p1` then
`p2`, both backend calls resolving with `d1` then `d2`, end with
`filePath = p2` and `hashResult = d2` exactly — no residue of `d1`. -/
theorem two_sequential_successes (s : State) (p1 p2 d1 d2 : String)
    (dig1 dig2 : String → DigestOutcome)
    (h1 : p1 ≠ "") (h2 : p2 ≠ "")
    (hd1 : dig1 p1 = .ok d1) (hd2 : dig2 p2 = .ok d2) :
    (run [Op.select (.resolved (some p1)) dig1,
          Op.select (.resolved (some p2)) dig2] (s, [])).1 =
      { filePath := p2, hashResult := d2 } := by
  simp [run, runOp, selectFile, jsFalsy, calculateHash, invokeHash,
    h1, h2, hd1, hd2]

theorem two_sequential_successes_witness :
    ("/tmp/a.txt" : String) ≠ "" ∧ ("/tmp/b.txt" : String) ≠ "" ∧
    (run [Op.select (.resolved (some "/tmp/a.txt")) (fun _ => DigestOutcome.ok "d1"),
          Op.select (.resolved (some "/tmp/b.txt")) (fun _ => DigestOutcome.ok "d2")]
        (State.initial, [])).1 =
      { filePath := "/tmp/b.txt", hashResult := "d2" } :=
  ⟨by decide, by decide,
    two_sequential_successes State.initial "/tmp/a.txt" "/tmp/b.txt" "d1" "d2"
      (fun _ => DigestOutcome.ok "d1") (fun _ => DigestOutcome.ok "d2")
      (by decide) (by decide) rfl rfl⟩

/-- C10: `calculateHash` never rejects — every branch returns `.ok`, the
backend rejection being absorbed by its internal catch — so the empty
catch in `selectFile` can only absorb picker errors: a backend failure
inside a `selectFile` run still emits its error notice. -/
theorem calculateHash_never_rejects :
    (∀ (digest : String → DigestOutcome) (s : State),
      ∃ r, calculateHash digest s = Except.ok r) ∧
    (∀ (s : State) (p : String) (e : JSError)
        (digest : String → DigestOutcome), p ≠ "" → digest p = .err e →
      notifyEvents (selectFile (.resolved (some p)) digest s).2 =
        [Event.notify "计算哈希值失败" e.str "error"]) := by
  constructor
  · intro digest s
    by_cases h : s.filePath = ""
    · exact ⟨(s, []), by simp [calculateHash, h]⟩
    · cases hd : digest s.filePath with
      | ok d => exact ⟨_, calculateHash_ok s d digest h hd⟩
      | err e => exact ⟨_, calculateHash_err s e digest h hd⟩
  · intro s p e digest hp hd
    simp [selectFile, jsFalsy, calculateHash, invokeHash, notifyEvents, hp, hd]

theorem calculateHash_never_rejects_witness :
    ("/tmp/a.txt" : String) ≠ "" ∧
    notifyEvents (selectFile (.resolved (some "/tmp/a.txt"))
        (fun _ => DigestOutcome.err ⟨"boom"⟩) State.initial).2 =
      [Event.notify "计算哈希值失败" "boom" "error"] :=
  ⟨by decide,
    calculateHash_never_rejects.2 State.initial "/tmp/a.txt" ⟨"boom"⟩
      (fun _ => DigestOutcome.err ⟨"boom"⟩) (by decide) rfl⟩

/-- `lastReqRes` over a concatenation folds the tail onto the head's value. -/
lemma lastReqRes_append (a b : List Event) :
    lastReqRes (a ++ b) = b.foldl stepLRR (lastReqRes a) := by
  simp [lastReqRes, List.foldl_append]

/-- One run preserves the correspondence between a non-empty `hashResult`
and the most recently submitted request. -/
lemma runOp_preserves_lrr (op : Op) (s : State)
    (acc : Option (String × Option String))
    (h : s.hashResult ≠ "" → acc = some (s.filePath, some s.hashResult)) :
    (runOp op s).1.hashResult ≠ "" →
      (runOp op s).2.foldl stepLRR acc =
        some ((runOp op s).1.filePath, some (runOp op s).1.hashResult) := by
  cases op with
  | select picker digest =>
      cases picker with
      | failed e => simpa [runOp, selectFile] using h
      | resolved sel =>
          cases sel with
          | none => simpa [runOp, selectFile, jsFalsy] using h
          | some p =>
              by_cases hp : p = ""
              · subst hp
                simpa [runOp, selectFile, jsFalsy] using h
              · cases hd : digest p with
                | ok d =>
                    simp [runOp, selectFile, jsFalsy, calculateHash,
                      invokeHash, stepLRR, hp, hd]
                | err e =>
                    simp [runOp, selectFile, jsFalsy, calculateHash,
                      invokeHash, stepLRR, hp, hd]
  | compute digest =>
      by_cases h0 : s.filePath = ""
      · simpa [runOp, calculateHash, h0] using h
      · cases hd : digest s.filePath with
        | ok d =>
            simp [runOp, calculateHash, invokeHash, stepLRR, h0, hd]
        | err e =>
            simp [runOp, calculateHash, invokeHash, stepLRR, h0, hd]

/-- A whole sequence of runs preserves the correspondence. -/
lemma run_preserves_lrr (ops : List Op) :
    ∀ (s : State) (evs : List Event),
      (s.hashResult ≠ "" → lastReqRes evs = some (s.filePath, some s.hashResult)) →
      ((run ops (s, evs)).1.hashResult ≠ "" →
        lastReqRes (run ops (s, evs)).2 =
          some ((run ops (s, evs)).1.filePath,
            some (run ops (s, evs)).1.hashResult)) := by
  induction ops with
  | nil => intro s evs h; simpa [run] using h
  | cons op ops ih =>
      intro s evs h
      have hrw : run (op :: ops) (s, evs) =
          run ops ((runOp op s).1, evs ++ (runOp op s).2) := rfl
      rw [hrw]
      apply ih
      intro hne
      rw [lastReqRes_append]
      exact runOp_preserves_lrr op s (lastReqRes evs) h hne

/-- C3: in every state reachable from the initial state by a sequence of
`selectFile` / `calculateHash` runs, a non-empty `hashResult` is exactly
the digest stored for the most recently submitted request, whose path is
the current `filePath`; and every `calculateHash` run on a non-empty
`filePath` clears `hashResult` before issuing its request (the clear
event precedes the request event in its trace). -/
theorem hashResult_matches_latest_request :
    (∀ ops : List Op,
      (run ops (State.initial, [])).1.hashResult ≠ "" →
        lastReqRes (run ops (State.initial, [])).2 =
          some ((run ops (State.initial, [])).1.filePath,
            some (run ops (State.initial, [])).1.hashResult)) ∧
    (∀ (digest : String → DigestOutcome) (s : State), s.filePath ≠ "" →
      ∃ s' rest, calculateHash digest s =
        .ok (s', Event.clearResult :: Event.request s.filePath :: rest)) := by
  constructor
  · intro ops
    exact run_preserves_lrr ops State.initial []
      (by intro h; simp [State.initial] at h)
  · intro digest s hp
    cases hd : digest s.filePath with
    | ok d => exact ⟨_, _, calculateHash_ok s d digest hp hd⟩
    | err e => exact ⟨_, _, calculateHash_err s e digest hp hd⟩

theorem hashResult_matches_latest_request_witness :
    ((run [Op.select (.resolved (some "a")) (fun _ => DigestOutcome.ok "d")]
        (State.initial, [])).1.hashResult ≠ "") ∧
    lastReqRes (run [Op.select (.resolved (some "a"))
        (fun _ => DigestOutcome.ok "d")] (State.initial, [])).2 =
      some ("a", some "d") ∧
    (({ filePath := "a", hashResult := "old" } : State).filePath ≠ "") ∧
    (∃ s' rest, calculateHash (fun _ => DigestOutcome.ok "d")
        { filePath := "a", hashResult := "old" } =
      .ok (s', Event.clearResult :: Event.request "a" :: rest)) :=
  ⟨by decide,
    hashResult_matches_latest_request.1
      [Op.select (.resolved (some "a")) (fun _ => DigestOutcome.ok "d")]
      (by decide),
    by decide,
    hashResult_matches_latest_request.2 (fun _ => DigestOutcome.ok "d")
      { filePath := "a", hashResult := "old" } (by decide)⟩

/-- After one run, `filePath` either kept its value or was written with a
non-empty path supplied by the picker of a `selectFile` run. -/
lemma runOp_filePath (op : Op) (s : State) :
    (runOp op s).1.filePath = s.filePath ∨
    ∃ picker digest p, op = Op.select picker digest ∧
      picker = PickerOutcome.resolved (some p) ∧ p ≠ "" ∧
      (runOp op s).1.filePath = p := by
  cases op with
  | select picker digest =>
      cases picker with
      | failed e => left; simp [runOp, selectFile]
      | resolved sel =>
          cases sel with
          | none => left; simp [runOp, selectFile, jsFalsy]
          | some p =>
              by_cases hp : p = ""
              · subst hp
                left; simp [runOp, selectFile, jsFalsy]
              · right
                refine ⟨_, _, p, rfl, rfl, hp, ?_⟩
                cases hd : digest p with
                | ok d =>
                    simp [runOp, selectFile, jsFalsy, calculateHash,
                      invokeHash, hp, hd]
                | err e =>
                    simp [runOp, selectFile, jsFalsy, calculateHash,
                      invokeHash, hp, hd]
  | compute digest =>
      left
      by_cases h0 : s.filePath = ""
      · simp [runOp, calculateHash, h0]
      · cases hd : digest s.filePath with
        | ok d => simp [runOp, calculateHash, invokeHash, h0, hd]
        | err e => simp [runOp, calculateHash, invokeHash, h0, hd]

/-- A non-empty `filePath` stays non-empty across any sequence of runs. -/
lemma run_filePath_ne (ops : List Op) :
    ∀ (s : State) (evs : List Event), s.filePath ≠ "" →
      (run ops (s, evs)).1.filePath ≠ "" := by
  induction ops with
  | nil => intro s evs h; simpa [run] using h
  | cons op ops ih =>
      intro s evs h
      have hrw : run (op :: ops) (s, evs) =
          run ops ((runOp op s).1, evs ++ (runOp op s).2) := rfl
      rw [hrw]
      apply ih
      rcases runOp_filePath op s with heq | ⟨picker, digest, p, _, _, hp, heq⟩
      · rw [heq]; exact h
      · rw [heq]; exact hp

/-- C8: `filePath` is written only with a path returned by the picker
(non-empty, because the falsiness guard filters the rest) and is never
reset: each run either leaves it unchanged or sets it to the new
selection, and once non-empty it stays non-empty across any sequence of
runs. -/
theorem filePath_only_from_picker :
    (∀ (ops : List Op) (s : State), s.filePath ≠ "" →
      (run ops (s, [])).1.filePath ≠ "") ∧
    (∀ (op : Op) (s : State),
      (runOp op s).1.filePath = s.filePath ∨
      ∃ picker digest p, op = Op.select picker digest ∧
        picker = PickerOutcome.resolved (some p) ∧ p ≠ "" ∧
        (runOp op s).1.filePath = p) :=
  ⟨fun ops s h => run_filePath_ne ops s [] h, runOp_filePath⟩

theorem filePath_only_from_picker_witness :
    ({ filePath := "/tmp/a.txt", hashResult := "h" } : State).filePath ≠ "" ∧
    (run [Op.compute (fun _ => DigestOutcome.err ⟨"x"⟩)]
        ({ filePath := "/tmp/a.txt", hashResult := "h" }, [])).1.filePath ≠ "" :=
  ⟨by decide,
    filePath_only_from_picker.1 [Op.compute (fun _ => DigestOutcome.err ⟨"x"⟩)]
      { filePath := "/tmp/a.txt", hashResult := "h" } (by decide)⟩
